import Mathlib

/-!
Verification of the ecowitt2mqtt core against its specification.

The development shallowly embeds the two subsystems the specification covers:
the lightning calculators (from the source file
ecowitt2mqtt/helpers/calculator/lightning.py) and the layered configuration
resolution (whose implementation module is not among the available sources and
is therefore modelled from the specification, as marked on each definition).
Machine reals are modelled as rationals; logging is modelled as an explicit
list of emitted log entries; raising an exception is modelled as returning an
error value of an Except type.
-/

/-- Modelled from the spec (the constants module const.py is not among the
sources; the spec fixes the labels km, mi and strikes): unit label for
kilometers. -/
def LENGTH_KILOMETERS : String := "km"

/-- Modelled from the spec (const.py is not among the sources): unit label for
miles. -/
def LENGTH_MILES : String := "mi"

/-- Modelled from the spec (const.py is not among the sources): unit label for
meters, the base unit of the distance dimension. -/
def LENGTH_METERS : String := "m"

/-- Modelled from the spec (const.py is not among the sources): unit label for
lightning strike counts. -/
def STRIKES : String := "strikes"

/-- UnitSystem enum from the data model: the process-wide metric/imperial
selector. -/
inductive UnitSystem where
  | metric
  | imperial
deriving DecidableEq

/-- CalculatedDataPoint: the result of a calculation, a value (or none when
the calculation could not be performed) together with a unit label (or none). -/
structure CalculatedDataPoint where
  value : Option ℚ
  unit : Option String
deriving DecidableEq

/-- PreCalculatedValueType: a raw value taken from the input payload, either a
number or a string. -/
inductive PreCalculatedValue where
  | num (q : ℚ)
  | str (s : String)
deriving DecidableEq

/-- Log levels of the logging side channel. -/
inductive LogLevel where
  | debug
  | warning
deriving DecidableEq

/-- One emitted log entry. -/
structure LogEntry where
  level : LogLevel
  message : String
deriving DecidableEq

/-- Outcome of one calculation call: the produced data point together with the
log entries emitted during the call. -/
structure CalcOutcome where
  point : CalculatedDataPoint
  logs : List LogEntry
deriving DecidableEq

/-- Modelled from the spec (the unit-conversion module is not among the
sources): the distance converter table of conversion factors, expressed as
meters per unit, defined exactly on the units of the distance dimension. -/
def DistanceConverter.metersPerUnit : String → Option ℚ
  | "m" => some 1
  | "km" => some 1000
  | "mi" => some (1609344 / 1000)
  | _ => none

/-- Modelled from the spec (the unit-conversion module is not among the
sources): pure conversion of a scalar between two units of the distance
dimension; none when a unit is not of this dimension. -/
def DistanceConverter.convert (value : ℚ) (fromUnit toUnit : String) : Option ℚ :=
  match DistanceConverter.metersPerUnit fromUnit, DistanceConverter.metersPerUnit toUnit with
  | some f, some t => some (value * f / t)
  | _, _ => none

/-- Modelled from the spec: the declared default unit of the distance
dimension for each unit system (kilometers under metric, miles under
imperial). -/
def DistanceConverter.DEFAULT_UNITS : UnitSystem → String
  | .metric => LENGTH_KILOMETERS
  | .imperial => LENGTH_MILES

/-- Modelled from the spec (the calculator base module is not among the
sources): the base Calculator selects its output unit from the pair of
declared metric/imperial units by the configured unit system. -/
def Calculator.select_output_unit (us : UnitSystem) (metricUnit imperialUnit : String) : String :=
  match us with
  | .metric => metricUnit
  | .imperial => imperialUnit

/-- Modelled from the spec (the calculator base module is not among the
sources): the base class wraps a computed value with the calculator output
unit; an absent value yields the data point with value none and unit none. -/
def Calculator.get_calculated_data_point (outputUnit : String) : Option ℚ → CalculatedDataPoint
  | none => { value := none, unit := none }
  | some q => { value := some q, unit := some outputUnit }

/-- Modelled from the spec (the calculator base module is not among the
sources): a SimpleCalculator passes a numeric value through unchanged,
attaching the declared output unit; a string value is logged at debug level
and yields the none data point. -/
def SimpleCalculator.calculate_from_value (outputUnit : String) :
    PreCalculatedValue → CalcOutcome
  | .num q =>
      { point := Calculator.get_calculated_data_point outputUnit (some q), logs := [] }
  | .str s =>
      { point := Calculator.get_calculated_data_point outputUnit none,
        logs := [{ level := .debug, message := "Can\x27t convert value to number: " ++ s }] }

/-- Embedded from lightning.py: the lightning strike count calculator declares
the fixed output unit strikes. -/
def LightningStrikeCountCalculator.output_unit : String := STRIKES

/-- Embedded from lightning.py: the lightning strike count calculator is a
SimpleCalculator with output unit strikes; its behavior does not depend on the
configured unit system. -/
def LightningStrikeCountCalculator.calculate_from_value (_us : UnitSystem)
    (value : PreCalculatedValue) : CalcOutcome :=
  SimpleCalculator.calculate_from_value LightningStrikeCountCalculator.output_unit value

/-- Embedded from lightning.py: lightning strike distances always have metric
as the input unit system, so the fixed input unit is the metric default of the
distance converter. -/
def LightningStrikeDistanceCalculator.DEFAULT_INPUT_UNIT : String :=
  DistanceConverter.DEFAULT_UNITS .metric

/-- Embedded from lightning.py: the declared imperial output unit. -/
def LightningStrikeDistanceCalculator.output_unit_imperial : String := LENGTH_MILES

/-- Embedded from lightning.py: the declared metric output unit. -/
def LightningStrikeDistanceCalculator.output_unit_metric : String := LENGTH_KILOMETERS

/-- Output unit of the distance calculator under the configured unit system
(selection logic modelled from the spec, declared units from lightning.py). -/
def LightningStrikeDistanceCalculator.output_unit (us : UnitSystem) : String :=
  Calculator.select_output_unit us
    LightningStrikeDistanceCalculator.output_unit_metric
    LightningStrikeDistanceCalculator.output_unit_imperial

/-- Modelled from the spec (the calculator base module is not among the
sources): convert_value converts a numeric value from the fixed input unit to
the output unit matching the configured unit system, via the distance
converter. -/
def LightningStrikeDistanceCalculator.convert_value (us : UnitSystem) (q : ℚ) : Option ℚ :=
  DistanceConverter.convert q
    LightningStrikeDistanceCalculator.DEFAULT_INPUT_UNIT
    (LightningStrikeDistanceCalculator.output_unit us)

/-- Embedded from lightning.py, calculate_from_value: a string input is logged
at debug level and yields the none data point; any other input is converted
from the fixed input unit and wrapped with the output unit. -/
def LightningStrikeDistanceCalculator.calculate_from_value (us : UnitSystem) :
    PreCalculatedValue → CalcOutcome
  | .str s =>
      { point := Calculator.get_calculated_data_point
          (LightningStrikeDistanceCalculator.output_unit us) none,
        logs := [{ level := .debug, message := "Can\x27t convert value to number: " ++ s }] }
  | .num q =>
      { point := Calculator.get_calculated_data_point
          (LightningStrikeDistanceCalculator.output_unit us)
          (LightningStrikeDistanceCalculator.convert_value us q),
        logs := [] }

/-- C1: the lightning strike distance calculator on input 1000 returns, under
the imperial output system, the value converted from kilometers to miles
(7812500/12573, about 621.37) with unit mi, and under the metric output system
the value 1000 unchanged with unit km. -/
theorem lightning_distance_conversion_1000 :
    DistanceConverter.convert 1000 LENGTH_KILOMETERS LENGTH_MILES = some (7812500 / 12573) ∧
    (LightningStrikeDistanceCalculator.calculate_from_value .imperial (.num 1000)).point
      = { value := some (7812500 / 12573), unit := some LENGTH_MILES } ∧
    (LightningStrikeDistanceCalculator.calculate_from_value .metric (.num 1000)).point
      = { value := some 1000, unit := some LENGTH_KILOMETERS } := by
  refine ⟨?_, ?_, ?_⟩ <;>
    simp [LightningStrikeDistanceCalculator.calculate_from_value,
      LightningStrikeDistanceCalculator.convert_value, DistanceConverter.convert,
      Calculator.get_calculated_data_point, DistanceConverter.metersPerUnit,
      LightningStrikeDistanceCalculator.output_unit, Calculator.select_output_unit,
      LightningStrikeDistanceCalculator.DEFAULT_INPUT_UNIT, DistanceConverter.DEFAULT_UNITS,
      LENGTH_KILOMETERS, LENGTH_MILES,
      LightningStrikeDistanceCalculator.output_unit_metric,
      LightningStrikeDistanceCalculator.output_unit_imperial] <;>
    norm_num

/-- C2: for every string input (in particular every non-numeric string), the
lightning strike distance calculator does not fail: it returns the data point
with value none and unit none and emits exactly one debug-level log line. -/
theorem lightning_distance_string_input_safe (us : UnitSystem) (s : String) :
    LightningStrikeDistanceCalculator.calculate_from_value us (.str s)
      = { point := { value := none, unit := none },
          logs := [{ level := .debug, message := "Can\x27t convert value to number: " ++ s }] } := by
  cases us <;> rfl

/-- C8: for every configured unit system, the lightning strike count
calculator on input 5 returns the data point with value 5 and unit strikes,
passing the value through unchanged. -/
theorem lightning_count_passthrough_5 (us : UnitSystem) :
    (LightningStrikeCountCalculator.calculate_from_value us (.num 5)).point
      = { value := some 5, unit := some STRIKES } := by
  cases us <;> rfl

/-- C9: the distance calculator short-circuits to the none result exactly on
string inputs: every string input (even the numeral string 5) yields value
none, while every numeric input is passed to the distance conversion, whose
result (always defined on these units) becomes the value of the data point. -/
theorem lightning_distance_short_circuit_iff_string :
    (∀ us : UnitSystem, ∀ s : String,
      (LightningStrikeDistanceCalculator.calculate_from_value us (.str s)).point.value = none) ∧
    ((LightningStrikeDistanceCalculator.calculate_from_value .metric (.str "5")).point.value
      = none) ∧
    (∀ us : UnitSystem, ∀ q : ℚ,
      (LightningStrikeDistanceCalculator.calculate_from_value us (.num q)).point.value
        = DistanceConverter.convert q LENGTH_KILOMETERS
            (LightningStrikeDistanceCalculator.output_unit us) ∧
      (LightningStrikeDistanceCalculator.calculate_from_value us (.num q)).point.value
        ≠ none) := by
  refine ⟨fun us s => by cases us <;> rfl, rfl, fun us q => ?_⟩
  cases us <;> exact ⟨rfl, by simp [LightningStrikeDistanceCalculator.calculate_from_value,
    LightningStrikeDistanceCalculator.convert_value, DistanceConverter.convert,
    Calculator.get_calculated_data_point, DistanceConverter.metersPerUnit,
    LightningStrikeDistanceCalculator.output_unit, Calculator.select_output_unit,
    LightningStrikeDistanceCalculator.DEFAULT_INPUT_UNIT, DistanceConverter.DEFAULT_UNITS,
    LENGTH_KILOMETERS, LENGTH_MILES,
    LightningStrikeDistanceCalculator.output_unit_metric,
    LightningStrikeDistanceCalculator.output_unit_imperial]⟩

/-- ConfigError: the fatal configuration error carrying a human-readable
message. -/
structure ConfigError where
  message : String
deriving DecidableEq

/-- BatteryStrategy enum: per-sensor interpretation of a battery reading. -/
inductive BatteryStrategy where
  | boolean
  | numeric
deriving DecidableEq

/-- Modelled from the spec (the config module is not among the sources):
enum lookup of a battery strategy by name; none for an unrecognized name. -/
def BatteryStrategy.parse (s : String) : Option BatteryStrategy :=
  if s = "boolean" then some .boolean
  else if s = "numeric" then some .numeric
  else none

/-- Canonical name of a battery strategy, inverse of BatteryStrategy.parse. -/
def BatteryStrategy.render : BatteryStrategy → String
  | .boolean => "boolean"
  | .numeric => "numeric"

/-- Splitting a character list at every occurrence of a separator character,
mirroring the Python str.split method (the empty list splits to one empty
piece). -/
def splitOnChar (c : Char) : List Char → List (List Char)
  | [] => [[]]
  | x :: xs =>
    if x = c then [] :: splitOnChar c xs
    else
      match splitOnChar c xs with
      | [] => [[x]]
      | y :: ys => (x :: y) :: ys

/-- String-level split on a single separator character. -/
def strSplitOn (c : Char) (s : String) : List String :=
  (splitOnChar c s.data).map String.mk

/-- Joining character lists with a separator character, inverse of
splitOnChar on separator-free pieces. -/
def joinChar (c : Char) : List (List Char) → List Char
  | [] => []
  | [x] => x
  | x :: y :: ys => x ++ c :: joinChar c (y :: ys)

/-- String-level join with a single separator character. -/
def strJoin (c : Char) (l : List String) : String :=
  String.mk (joinChar c (l.map String.data))

/-- Modelled from the spec (the config module is not among the sources): one
battery override token key=strategy must split into exactly two parts on the
equals sign and name a recognized strategy; otherwise configuration
construction fails with a ConfigError. -/
def parse_override_token (t : String) : Except ConfigError (String × BatteryStrategy) :=
  match strSplitOn '=' t with
  | [k, v] =>
    match BatteryStrategy.parse v with
    | some strat => .ok (k, strat)
    | none => .error { message := "Unrecognized battery strategy: " ++ v }
  | _ => .error { message := "Unable to parse battery override: " ++ t }

/-- Parsing a whole sequence of battery override tokens; the first failing
token fails the construction. -/
def parse_override_tokens : List String → Except ConfigError (List (String × BatteryStrategy))
  | [] => .ok []
  | t :: rest =>
    match parse_override_token t with
    | .error e => .error e
    | .ok p =>
      match parse_override_tokens rest with
      | .error e => .error e
      | .ok ps => .ok (p :: ps)

/-- Modelled from the spec: a structured config-file mapping from sensor key
to strategy name; an unrecognized strategy name fails the construction. -/
def parse_override_mapping : List (String × String) → Except ConfigError (List (String × BatteryStrategy))
  | [] => .ok []
  | (k, v) :: rest =>
    match BatteryStrategy.parse v with
    | none => .error { message := "Unrecognized battery strategy: " ++ v }
    | some strat =>
      match parse_override_mapping rest with
      | .error e => .error e
      | .ok ps => .ok ((k, strat) :: ps)

/-- Shapes in which the battery-override composite field can be supplied: a
sequence of key=strategy tokens from CLI options, a single
semicolon-delimited string from an environment variable, or a structured
mapping from a config file. -/
inductive BatteryOverrideSource where
  | tokens (toks : List String)
  | delimited (s : String)
  | mapping (m : List (String × String))
deriving DecidableEq

/-- Modelled from the spec: normalization of any of the three battery-override
source shapes into one mapping from sensor key to BatteryStrategy; the
delimited environment string is first split on semicolons into tokens. -/
def normalize_battery_overrides : BatteryOverrideSource → Except ConfigError (List (String × BatteryStrategy))
  | .tokens toks => parse_override_tokens toks
  | .delimited s => parse_override_tokens (strSplitOn ';' s)
  | .mapping m => parse_override_mapping m

/-- Modelled from the spec: the resolved battery-override mapping is empty
when no source supplied the field. -/
def resolve_battery_overrides : Option BatteryOverrideSource → Except ConfigError (List (String × BatteryStrategy))
  | none => .ok []
  | some src => normalize_battery_overrides src

/-- Modelled from the spec: the default battery strategy is boolean when the
field is absent; an unrecognized strategy name fails with a ConfigError. -/
def resolve_default_battery_strategy : Option String → Except ConfigError BatteryStrategy
  | none => .ok .boolean
  | some s =>
    match BatteryStrategy.parse s with
    | some strat => .ok strat
    | none => .error { message := "Unrecognized battery strategy: " ++ s }

/-- Modelled from the spec, design note on layered merge: one configuration
layer exposes each settable field as present or absent; each of the four
sources (config file, legacy environment, current environment, CLI) supplies
one layer. -/
structure Layer where
  mqtt_broker : Option String := none
  endpoint : Option String := none
  port : Option Nat := none
  battery_overrides : Option BatteryOverrideSource := none
  default_battery_strategy : Option String := none
deriving DecidableEq

/-- The layer with every field absent. -/
def Layer.empty : Layer := {}

/-- Modelled from the spec: field-level merge of two layers; the higher-
precedence layer replaces the lower one at every field it supplies. -/
def Layer.merge (lo hi : Layer) : Layer where
  mqtt_broker := hi.mqtt_broker <|> lo.mqtt_broker
  endpoint := hi.endpoint <|> lo.endpoint
  port := hi.port <|> lo.port
  battery_overrides := hi.battery_overrides <|> lo.battery_overrides
  default_battery_strategy := hi.default_battery_strategy <|> lo.default_battery_strategy

/-- Config: the resolved, validated, immutable settings snapshot. -/
structure Config where
  mqtt_broker : String
  endpoint : Option String
  port : Option Nat
  battery_overrides : List (String × BatteryStrategy)
  default_battery_strategy : BatteryStrategy
deriving DecidableEq

/-- Modelled from the spec: folding the four layers in ascending precedence
(config file, legacy environment, current environment, CLI) and validating
the merged result; the MQTT broker is required after the full merge. -/
def buildFromLayers (file legacyEnv env cli : Layer) : Except ConfigError Config :=
  let merged := Layer.merge (Layer.merge (Layer.merge file legacyEnv) env) cli
  match resolve_battery_overrides merged.battery_overrides with
  | .error e => .error e
  | .ok overrides =>
    match resolve_default_battery_strategy merged.default_battery_strategy with
    | .error e => .error e
    | .ok strat =>
      match merged.mqtt_broker with
      | none => .error { message := "Missing required option: --mqtt-broker" }
      | some broker =>
        .ok { mqtt_broker := broker, endpoint := merged.endpoint, port := merged.port,
              battery_overrides := overrides, default_battery_strategy := strat }

/-- Modelled from the spec: the content of a supplied config file, classified
by whether it parses in the first structured candidate format (JSON), in the
second (the YAML-like superset), or in neither. -/
inductive ConfigFile where
  | json (settings : Layer)
  | yaml (settings : Layer)
  | unparsable (text : String)
deriving DecidableEq

/-- Modelled from the spec: reading a config file tries the two structured
formats; content parsing in neither fails with a ConfigError describing the
file as unparsable. -/
def read_config_file : ConfigFile → Except ConfigError Layer
  | .json settings => .ok settings
  | .yaml settings => .ok settings
  | .unparsable text => .error { message := "Unable to parse config file: " ++ text }

/-- Modelled from the spec: full Config construction from the CLI layer, the
optional config file named on the CLI, and the two environment layers. -/
def Config.build (cli : Layer) (file : Option ConfigFile) (legacyEnv env : Layer) :
    Except ConfigError Config :=
  match file with
  | none => buildFromLayers Layer.empty legacyEnv env cli
  | some f =>
    match read_config_file f with
    | .error e => .error e
    | .ok fileLayer => buildFromLayers fileLayer legacyEnv env cli

/-- Rendering a list of logical overrides as CLI key=strategy tokens. -/
def overridesToTokens (l : List (String × BatteryStrategy)) : List String :=
  l.map fun p => p.1 ++ "=" ++ p.2.render

/-- Rendering a list of logical overrides as one semicolon-delimited
environment-variable string. -/
def overridesToDelimited (l : List (String × BatteryStrategy)) : String :=
  strJoin ';' (overridesToTokens l)

/-- Rendering a list of logical overrides as a structured config-file
mapping. -/
def overridesToMapping (l : List (String × BatteryStrategy)) : List (String × String) :=
  l.map fun p => (p.1, p.2.render)

/-- Modelled from the spec: lookup of an environment variable by name in an
environment modelled as an association list. -/
def envGet (env : List (String × String)) (name : String) : Option String :=
  (env.find? fun p => p.1 == name).map fun p => p.2

/-- Modelled from the spec: the exact text of the deprecation notice emitted
when a legacy environment variable is read. -/
def deprecation_message (legacy modern : String) : String :=
  "Environment variable " ++ legacy ++ " is deprecated; use " ++ modern ++ " instead"

/-- Modelled from the spec: one deprecation log line is emitted per legacy
variable of the legacy/modern pairing that is present in the environment. -/
def deprecation_logs (pairs : List (String × String)) (env : List (String × String)) :
    List String :=
  pairs.filterMap fun p => (envGet env p.1).map fun _ => deprecation_message p.1 p.2

/-- Modelled from the spec: the value an environment-variable pair contributes
to its field, the modern variable taking precedence over the legacy one. -/
def resolve_env_field (legacy modern : String) (env : List (String × String)) : Option String :=
  envGet env modern <|> envGet env legacy

theorem splitOnChar_ne_nil (c : Char) (xs : List Char) : splitOnChar c xs ≠ [] := by
  induction xs with
  | nil => simp [splitOnChar]
  | cons x xs ih =>
    simp only [splitOnChar]
    split
    · simp
    · match h : splitOnChar c xs with
      | [] => simp
      | y :: ys => simp

theorem splitOnChar_no_sep (c : Char) (xs : List Char) (h : c ∉ xs) :
    splitOnChar c xs = [xs] := by
  induction xs with
  | nil => rfl
  | cons x xs ih =>
    simp only [List.mem_cons, not_or] at h
    have hxc : ¬ x = c := fun hx => h.1 hx.symm
    simp only [splitOnChar, if_neg hxc, ih h.2]

theorem splitOnChar_append_sep (c : Char) (xs ys : List Char) (h : c ∉ xs) :
    splitOnChar c (xs ++ c :: ys) = xs :: splitOnChar c ys := by
  induction xs with
  | nil => simp [splitOnChar]
  | cons x xs ih =>
    simp only [List.mem_cons, not_or] at h
    have hxc : ¬ x = c := fun hx => h.1 hx.symm
    simp only [List.cons_append, splitOnChar, if_neg hxc, List.append_eq, ih h.2]

theorem splitOnChar_joinChar (c : Char) (l : List (List Char)) (hne : l ≠ [])
    (hfree : ∀ x ∈ l, c ∉ x) : splitOnChar c (joinChar c l) = l := by
  induction l with
  | nil => exact absurd rfl hne
  | cons x xs ih =>
    match xs with
    | [] => exact splitOnChar_no_sep c x (hfree x (by simp))
    | y :: ys =>
      have hx : c ∉ x := hfree x (by simp)
      have hrest : ∀ z ∈ y :: ys, c ∉ z := fun z hz => hfree z (List.mem_cons_of_mem x hz)
      simp only [joinChar, splitOnChar_append_sep c x _ hx, ih (by simp) hrest]

theorem strSplitOn_strJoin (c : Char) (l : List String) (hne : l ≠ [])
    (hfree : ∀ x ∈ l, c ∉ x.data) : strSplitOn c (strJoin c l) = l := by
  have hmapne : l.map String.data ≠ [] := by
    intro h
    exact hne (List.map_eq_nil_iff.mp h)
  have hmapfree : ∀ x ∈ l.map String.data, c ∉ x := by
    intro x hx
    obtain ⟨s, hs, rfl⟩ := List.mem_map.mp hx
    exact hfree s hs
  show (splitOnChar c (joinChar c (l.map String.data))).map String.mk = l
  rw [splitOnChar_joinChar c _ hmapne hmapfree, List.map_map]
  exact List.map_id'' (fun s => rfl) l

theorem strategy_render_no_eq_sign (st : BatteryStrategy) : '=' ∉ st.render.data := by
  cases st <;> decide

theorem strategy_render_no_semicolon (st : BatteryStrategy) : ';' ∉ st.render.data := by
  cases st <;> decide

theorem strategy_parse_render (st : BatteryStrategy) :
    BatteryStrategy.parse st.render = some st := by
  cases st <;> rfl

theorem parse_override_token_mk (k : String) (st : BatteryStrategy)
    (hk : '=' ∉ k.data) :
    parse_override_token (k ++ "=" ++ st.render) = .ok (k, st) := by
  have hdata : (k ++ "=" ++ st.render).data = k.data ++ '=' :: st.render.data := by
    simp [String.data_append]
  have hsplit : strSplitOn '=' (k ++ "=" ++ st.render) = [k, st.render] := by
    show (splitOnChar '=' (k ++ "=" ++ st.render).data).map String.mk = [k, st.render]
    rw [hdata, splitOnChar_append_sep '=' k.data _ hk,
      splitOnChar_no_sep '=' st.render.data (strategy_render_no_eq_sign st)]
    rfl
  simp [parse_override_token, hsplit, strategy_parse_render]

theorem parse_override_tokens_mk (l : List (String × BatteryStrategy))
    (hk : ∀ p ∈ l, '=' ∉ p.1.data) :
    parse_override_tokens (overridesToTokens l) = .ok l := by
  induction l with
  | nil => rfl
  | cons p ps ih =>
    have hp : '=' ∉ p.1.data := hk p (by simp)
    have hps : ∀ q ∈ ps, '=' ∉ q.1.data := fun q hq => hk q (List.mem_cons_of_mem p hq)
    simp only [overridesToTokens, List.map_cons]
    simp only [parse_override_tokens, parse_override_token_mk p.1 p.2 hp]
    rw [show (List.map (fun p => p.1 ++ "=" ++ p.2.render) ps) = overridesToTokens ps from rfl,
      ih hps]

theorem parse_override_mapping_mk (l : List (String × BatteryStrategy)) :
    parse_override_mapping (overridesToMapping l) = .ok l := by
  induction l with
  | nil => rfl
  | cons p ps ih =>
    simp only [overridesToMapping, List.map_cons]
    simp only [parse_override_mapping, strategy_parse_render]
    rw [show (List.map (fun p => (p.1, BatteryStrategy.render p.2)) ps) = overridesToMapping ps
      from rfl, ih]

theorem token_mk_no_semicolon (p : String × BatteryStrategy) (hk : ';' ∉ p.1.data) :
    ';' ∉ (p.1 ++ "=" ++ p.2.render).data := by
  simp only [String.data_append]
  intro h
  rcases List.mem_append.mp h with h1 | h2
  · rcases List.mem_append.mp h1 with ha | hb
    · exact hk ha
    · simp at hb
  · exact strategy_render_no_semicolon p.2 h2

theorem strSplitOn_overridesToDelimited (l : List (String × BatteryStrategy))
    (hne : l ≠ []) (hk : ∀ p ∈ l, ';' ∉ p.1.data) :
    strSplitOn ';' (overridesToDelimited l) = overridesToTokens l := by
  have htokne : overridesToTokens l ≠ [] := by
    intro h
    exact hne (List.map_eq_nil_iff.mp h)
  have htokfree : ∀ t ∈ overridesToTokens l, ';' ∉ t.data := by
    intro t ht
    obtain ⟨p, hp, rfl⟩ := List.mem_map.mp ht
    exact token_mk_no_semicolon p (hk p hp)
  exact strSplitOn_strJoin ';' (overridesToTokens l) htokne htokfree

/-- A token is malformed when it does not split into exactly two parts on the
equals sign. -/
def tokenMalformed (t : String) : Prop := (strSplitOn '=' t).length ≠ 2

/-- A strategy name is unrecognized when the enum lookup fails. -/
def strategyUnknown (v : String) : Prop := BatteryStrategy.parse v = none

/-- A battery-override token is invalid when it is malformed or names an
unrecognized strategy. -/
def tokenBad (t : String) : Prop :=
  tokenMalformed t ∨ ∃ k v, strSplitOn '=' t = [k, v] ∧ strategyUnknown v

theorem parse_override_token_error_of_bad (t : String) (h : tokenBad t) :
    ∃ e, parse_override_token t = .error e := by
  rcases h with hm | ⟨k, v, hsplit, hunk⟩
  · have hm' : (strSplitOn '=' t).length ≠ 2 := hm
    rcases hs : strSplitOn '=' t with _ | ⟨a, _ | ⟨b, _ | ⟨c, rest⟩⟩⟩
    · exact ⟨{ message := "Unable to parse battery override: " ++ t },
        by simp [parse_override_token, hs]⟩
    · exact ⟨{ message := "Unable to parse battery override: " ++ t },
        by simp [parse_override_token, hs]⟩
    · rw [hs] at hm'
      simp at hm'
    · exact ⟨{ message := "Unable to parse battery override: " ++ t },
        by simp [parse_override_token, hs]⟩
  · have hunk' : BatteryStrategy.parse v = none := hunk
    exact ⟨{ message := "Unrecognized battery strategy: " ++ v },
      by simp [parse_override_token, hsplit, hunk']⟩

theorem parse_override_tokens_error_of_mem (toks : List String) (t : String)
    (hmem : t ∈ toks) (hbad : tokenBad t) :
    ∃ e, parse_override_tokens toks = .error e := by
  induction toks with
  | nil => simp at hmem
  | cons a rest ih =>
    rcases List.mem_cons.mp hmem with rfl | hmem'
    · obtain ⟨e, he⟩ := parse_override_token_error_of_bad t hbad
      exact ⟨e, by simp [parse_override_tokens, he]⟩
    · cases ha : parse_override_token a with
      | error e => exact ⟨e, by simp [parse_override_tokens, ha]⟩
      | ok p =>
        obtain ⟨e, he⟩ := ih hmem'
        exact ⟨e, by simp [parse_override_tokens, ha, he]⟩

theorem parse_override_mapping_error_of_mem (m : List (String × String)) (k v : String)
    (hmem : (k, v) ∈ m) (hunk : strategyUnknown v) :
    ∃ e, parse_override_mapping m = .error e := by
  have hunk' : BatteryStrategy.parse v = none := hunk
  induction m with
  | nil => simp at hmem
  | cons a rest ih =>
    obtain ⟨ak, av⟩ := a
    cases hp : BatteryStrategy.parse av with
    | none =>
      exact ⟨{ message := "Unrecognized battery strategy: " ++ av },
        by simp [parse_override_mapping, hp]⟩
    | some st =>
      have hmem' : (k, v) ∈ rest := by
        rcases List.mem_cons.mp hmem with heq | hmem'
        · obtain ⟨rfl, rfl⟩ := Prod.mk.injEq k v ak av ▸ heq
          rw [hunk'] at hp
          exact absurd hp (by simp)
        · exact hmem'
      obtain ⟨e, he⟩ := ih hmem'
      exact ⟨e, by simp [parse_override_mapping, hp, he]⟩

theorem envGet_single (l v n : String) :
    envGet [(l, v)] n = if l = n then some v else none := by
  by_cases h : l = n
  · subst h
    simp [envGet, List.find?]
  · have hb : (l == n) = false := beq_eq_false_iff_ne.mpr h
    simp [envGet, List.find?, hb, h]

theorem deprecation_logs_cons (p : String × String) (rest : List (String × String))
    (env : List (String × String)) :
    deprecation_logs (p :: rest) env
      = match envGet env p.1 with
        | some _ => deprecation_message p.1 p.2 :: deprecation_logs rest env
        | none => deprecation_logs rest env := by
  unfold deprecation_logs
  rw [List.filterMap_cons]
  cases envGet env p.1 <;> rfl

theorem deprecation_logs_of_not_mem (pairs : List (String × String)) (l v : String)
    (h : l ∉ pairs.map Prod.fst) : deprecation_logs pairs [(l, v)] = [] := by
  induction pairs with
  | nil => rfl
  | cons p rest ih =>
    simp only [List.map_cons, List.mem_cons, not_or] at h
    have hne : ¬ l = p.1 := h.1
    rw [deprecation_logs_cons, envGet_single, if_neg hne]
    exact ih h.2

theorem deprecation_logs_single (pairs : List (String × String)) (l m v : String)
    (hmem : (l, m) ∈ pairs) (hnodup : (pairs.map Prod.fst).Nodup) :
    deprecation_logs pairs [(l, v)] = [deprecation_message l m] := by
  induction pairs with
  | nil => simp at hmem
  | cons p rest ih =>
    simp only [List.map_cons, List.nodup_cons] at hnodup
    rcases List.mem_cons.mp hmem with heq | hmem'
    · subst heq
      rw [deprecation_logs_cons, envGet_single, if_pos rfl]
      show deprecation_message l m :: deprecation_logs rest [(l, v)] = [deprecation_message l m]
      rw [deprecation_logs_of_not_mem rest l v hnodup.1]
    · have hl : l ∈ rest.map Prod.fst := List.mem_map.mpr ⟨(l, m), hmem', rfl⟩
      have hp1 : ¬ l = p.1 := fun h => hnodup.1 (h ▸ hl)
      rw [deprecation_logs_cons, envGet_single, if_neg hp1]
      exact ih hmem' hnodup.2

/-- C4: for every legacy/modern environment-variable pair of the pairing, an
environment holding only the legacy variable resolves the field to the same
value as an environment holding only the modern variable, and the legacy
environment makes Config construction emit exactly one deprecation log line
naming both variables in the documented format. -/
theorem deprecated_env_var_equivalence (pairs : List (String × String)) (l m v : String)
    (hmem : (l, m) ∈ pairs) (hnodup : (pairs.map Prod.fst).Nodup) :
    resolve_env_field l m [(l, v)] = some v ∧
    resolve_env_field l m [(m, v)] = some v ∧
    deprecation_logs pairs [(l, v)] = [deprecation_message l m] ∧
    deprecation_message l m
      = "Environment variable " ++ l ++ " is deprecated; use " ++ m ++ " instead" := by
  refine ⟨?_, ?_, deprecation_logs_single pairs l m v hmem hnodup, rfl⟩
  · unfold resolve_env_field
    rw [envGet_single, envGet_single, if_pos rfl]
    by_cases h : l = m
    · rw [if_pos h]
      rfl
    · rw [if_neg h]
      rfl
  · unfold resolve_env_field
    rw [envGet_single, envGet_single, if_pos rfl]
    by_cases h : m = l
    · rw [if_pos h]
      rfl
    · rw [if_neg h]
      rfl

/-- Witness for C4 at a concrete pairing, legacy variable, modern variable and
value. -/
theorem deprecated_env_var_equivalence_witness :
    resolve_env_field "LOG_LEVEL" "ECOWITT2MQTT_VERBOSE" [("LOG_LEVEL", "DEBUG")]
      = some "DEBUG" ∧
    resolve_env_field "LOG_LEVEL" "ECOWITT2MQTT_VERBOSE" [("ECOWITT2MQTT_VERBOSE", "DEBUG")]
      = some "DEBUG" ∧
    deprecation_logs
      [("MQTT_BROKER", "ECOWITT2MQTT_MQTT_BROKER"), ("LOG_LEVEL", "ECOWITT2MQTT_VERBOSE")]
      [("LOG_LEVEL", "DEBUG")]
      = [deprecation_message "LOG_LEVEL" "ECOWITT2MQTT_VERBOSE"] ∧
    deprecation_message "LOG_LEVEL" "ECOWITT2MQTT_VERBOSE"
      = "Environment variable " ++ "LOG_LEVEL" ++ " is deprecated; use "
        ++ "ECOWITT2MQTT_VERBOSE" ++ " instead" :=
  deprecated_env_var_equivalence
    [("MQTT_BROKER", "ECOWITT2MQTT_MQTT_BROKER"), ("LOG_LEVEL", "ECOWITT2MQTT_VERBOSE")]
    "LOG_LEVEL" "ECOWITT2MQTT_VERBOSE" "DEBUG" (by decide) (by decide)

/-- C3: a set of logical battery overrides supplied as CLI key=strategy
tokens, as a single semicolon-delimited environment-variable string, or as a
structured config-file mapping resolves, in the constructed Config, to the
identical mapping from sensor key to BatteryStrategy (namely the logical
overrides themselves), provided the override set is nonempty and no sensor
key contains the separator characters of the token syntax. -/
theorem battery_override_sources_agree (l : List (String × BatteryStrategy)) (b : String)
    (hne : l ≠ [])
    (hkeys : ∀ p ∈ l, '=' ∉ p.1.data ∧ ';' ∉ p.1.data) :
    (Config.build
        { mqtt_broker := some b, battery_overrides := some (.tokens (overridesToTokens l)) }
        none Layer.empty Layer.empty).map Config.battery_overrides = .ok l ∧
    (Config.build { mqtt_broker := some b } none Layer.empty
        { battery_overrides := some (.delimited (overridesToDelimited l)) }).map
      Config.battery_overrides = .ok l ∧
    (Config.build { mqtt_broker := some b }
        (some (.json { battery_overrides := some (.mapping (overridesToMapping l)) }))
        Layer.empty Layer.empty).map Config.battery_overrides = .ok l := by
  have h1 : parse_override_tokens (overridesToTokens l) = .ok l :=
    parse_override_tokens_mk l fun p hp => (hkeys p hp).1
  have h2 : strSplitOn ';' (overridesToDelimited l) = overridesToTokens l :=
    strSplitOn_overridesToDelimited l hne fun p hp => (hkeys p hp).2
  have h3 : parse_override_mapping (overridesToMapping l) = .ok l :=
    parse_override_mapping_mk l
  refine ⟨?_, ?_, ?_⟩ <;>
    simp [Config.build, buildFromLayers, read_config_file, Layer.merge, Layer.empty,
      resolve_battery_overrides, normalize_battery_overrides,
      resolve_default_battery_strategy, h1, h2, h3, Except.map]

/-- Concrete override set used by the C3 witness. -/
def demoOverrides : List (String × BatteryStrategy) :=
  [("wh65batt0", .boolean), ("wh65batt1", .numeric)]

/-- Witness for C3 at the concrete override set of the configuration tests. -/
theorem battery_override_sources_agree_witness :
    (Config.build
        { mqtt_broker := some "127.0.0.1",
          battery_overrides := some (.tokens (overridesToTokens demoOverrides)) }
        none Layer.empty Layer.empty).map Config.battery_overrides = .ok demoOverrides ∧
    (Config.build { mqtt_broker := some "127.0.0.1" } none Layer.empty
        { battery_overrides := some (.delimited (overridesToDelimited demoOverrides)) }).map
      Config.battery_overrides = .ok demoOverrides ∧
    (Config.build { mqtt_broker := some "127.0.0.1" }
        (some (.json
          { battery_overrides := some (.mapping (overridesToMapping demoOverrides)) }))
        Layer.empty Layer.empty).map Config.battery_overrides = .ok demoOverrides :=
  battery_override_sources_agree demoOverrides "127.0.0.1" (by decide) (by decide)

/-- C5: Config construction fails with a ConfigError whenever the battery
settings are invalid: a token that does not split into exactly two parts on
the equals sign or names an unrecognized strategy fails construction whether
supplied as a CLI token, inside the delimited environment string, or (for an
unrecognized strategy) in the config-file mapping, and an unrecognized
default-battery-strategy name also fails construction. -/
theorem config_rejects_invalid_battery_settings (b : String) :
    (∀ toks t, t ∈ toks → tokenBad t →
      ∃ e, Config.build
          { mqtt_broker := some b, battery_overrides := some (.tokens toks) }
          none Layer.empty Layer.empty = .error e) ∧
    (∀ s t, t ∈ strSplitOn ';' s → tokenBad t →
      ∃ e, Config.build { mqtt_broker := some b } none Layer.empty
          { battery_overrides := some (.delimited s) } = .error e) ∧
    (∀ mp k v, (k, v) ∈ mp → strategyUnknown v →
      ∃ e, Config.build { mqtt_broker := some b }
          (some (.json { battery_overrides := some (.mapping mp) }))
          Layer.empty Layer.empty = .error e) ∧
    (∀ s, strategyUnknown s →
      ∃ e, Config.build { mqtt_broker := some b } none Layer.empty
          { default_battery_strategy := some s } = .error e) := by
  refine ⟨?_, ?_, ?_, ?_⟩
  · intro toks t hmem hbad
    obtain ⟨e, he⟩ := parse_override_tokens_error_of_mem toks t hmem hbad
    exact ⟨e, by simp [Config.build, buildFromLayers, Layer.merge, Layer.empty,
      resolve_battery_overrides, normalize_battery_overrides, he]⟩
  · intro s t hmem hbad
    obtain ⟨e, he⟩ := parse_override_tokens_error_of_mem (strSplitOn ';' s) t hmem hbad
    exact ⟨e, by simp [Config.build, buildFromLayers, Layer.merge, Layer.empty,
      resolve_battery_overrides, normalize_battery_overrides, he]⟩
  · intro mp k v hmem hunk
    obtain ⟨e, he⟩ := parse_override_mapping_error_of_mem mp k v hmem hunk
    exact ⟨e, by simp [Config.build, buildFromLayers, read_config_file, Layer.merge,
      Layer.empty, resolve_battery_overrides, normalize_battery_overrides, he]⟩
  · intro s hs
    have hs' : BatteryStrategy.parse s = none := hs
    exact ⟨{ message := "Unrecognized battery strategy: " ++ s },
      by simp [Config.build, buildFromLayers, Layer.merge, Layer.empty,
        resolve_battery_overrides, resolve_default_battery_strategy, hs']⟩

/-- Witness for C5 at the concrete invalid inputs of the configuration tests:
the token wh65batt0;boolean from each source shape, an unrecognized mapping
strategy, and the unrecognized default strategy some-random-string. -/
theorem config_rejects_invalid_battery_settings_witness :
    (∃ e, Config.build
        { mqtt_broker := some "127.0.0.1",
          battery_overrides := some (.tokens ["wh65batt0;boolean", "wh65batt1=numeric"]) }
        none Layer.empty Layer.empty = .error e) ∧
    (∃ e, Config.build { mqtt_broker := some "127.0.0.1" } none Layer.empty
        { battery_overrides := some (.delimited "wh65batt0;boolean") } = .error e) ∧
    (∃ e, Config.build { mqtt_broker := some "127.0.0.1" }
        (some (.json { battery_overrides := some (.mapping [("wh65batt0", "fuzzy")]) }))
        Layer.empty Layer.empty = .error e) ∧
    (∃ e, Config.build { mqtt_broker := some "127.0.0.1" } none Layer.empty
        { default_battery_strategy := some "some-random-string" } = .error e) := by
  obtain ⟨h1, h2, h3, h4⟩ := config_rejects_invalid_battery_settings "127.0.0.1"
  refine ⟨h1 ["wh65batt0;boolean", "wh65batt1=numeric"] "wh65batt0;boolean" (by simp)
      (Or.inl (show (strSplitOn '=' "wh65batt0;boolean").length ≠ 2 by decide)),
    h2 "wh65batt0;boolean" "wh65batt0" (by decide)
      (Or.inl (show (strSplitOn '=' "wh65batt0").length ≠ 2 by decide)),
    h3 [("wh65batt0", "fuzzy")] "wh65batt0" "fuzzy" (by simp)
      (show BatteryStrategy.parse "fuzzy" = none by decide),
    h4 "some-random-string" (show BatteryStrategy.parse "some-random-string" = none by decide)⟩

/-- C6: when, after merging all four layers, no source supplies an MQTT
broker (for example a config file carrying only endpoint and port, with empty
CLI and environment layers), Config construction fails with the ConfigError
whose message is exactly the text Missing required option: --mqtt-broker
(which therefore contains that text). -/
theorem config_missing_mqtt_broker (ep : String) (pt : Nat) :
    Config.build Layer.empty (some (.json { endpoint := some ep, port := some pt }))
      Layer.empty Layer.empty
      = .error { message := "Missing required option: --mqtt-broker" } := rfl

/-- C7: when the supplied config file parses neither as JSON nor as the
structured alternative format, Config construction fails, whatever the other
layers hold, with the ConfigError whose message is the text Unable to parse
config file followed by the offending content (and therefore contains the
text Unable to parse config file). -/
theorem config_unparsable_file (text : String) (cli legacyEnv env : Layer) :
    Config.build cli (some (.unparsable text)) legacyEnv env
      = .error { message := "Unable to parse config file: " ++ text } := rfl

/-- C10: when no source supplies any battery setting, Config construction
succeeds and the snapshot resolves battery_overrides to the empty mapping and
default_battery_strategy to the boolean strategy. -/
theorem config_no_battery_settings_defaults (b ep : String) (pt : Nat) :
    (Config.build { mqtt_broker := some b, endpoint := some ep, port := some pt }
        none Layer.empty Layer.empty).map
      (fun c => (c.battery_overrides, c.default_battery_strategy))
      = .ok ([], BatteryStrategy.boolean) := rfl
